import Mathlib

/-!
Shallow embedding of the order/stock reservation and settlement engine of the
MyLDCshop repository.

Sources embedded:
  * `createOrder`           (server action, file with the checkout flow)
  * `processNotify`         (payment-gateway notification route)
  * `cancelExpiredOrders`   (src/lib/db/queries.ts, Postgres version)

Modelling conventions:
  * Database rows become Lean structures; a table is a `List` of rows whose
    order is the row order used by un-ordered `LIMIT 1` selections.
  * Timestamps are `Nat` seconds.  `reserved_at < NOW() - INTERVAL '1 minute'`
    becomes `r + 60 < now`, and `created_at < NOW() - INTERVAL '5 minutes'`
    becomes `t + 300 < now`.
  * SQL `NULL` becomes `Option`.  The code wraps `is_used` in
    `COALESCE(is_used, false)` at every use, so `isUsed : Bool` loses nothing.
  * Money columns (`orders.amount`, the notification `money` field) are
    parsed with `parseFloat` and compared with an epsilon of `0.01`; they are
    modelled as `ℚ`.
  * The md5 signature over the sorted `key=value` canonical string is an
    external crypto collaborator; it enters the model as the `computedSign`
    argument of `processNotify`, and validity of a supplied signature is the
    equation `p.sign = computedSign`.
  * The schema-drift recovery branches of the source (catching error 42703,
    adding missing columns, backfilling `is_used = NULL`, then retrying) are
    deployment concerns; in the model the schema always has the columns, so
    those branches are the identity and are elided.
-/

namespace LDCShop

set_option maxRecDepth 400000

inductive OrderStatus where
  | pending
  | paid
  | delivered
  | cancelled
  | refunded
  deriving DecidableEq, Repr

structure Product where
  id : String
  name : String
  price : ℚ
  isActive : Bool
  purchaseLimit : Nat
  deriving DecidableEq, Repr

structure Card where
  id : Nat
  productId : String
  cardKey : String
  isUsed : Bool
  usedAt : Option Nat
  reservedOrderId : Option String
  reservedAt : Option Nat
  deriving DecidableEq, Repr

structure Order where
  orderId : String
  productId : String
  productName : String
  amount : ℚ
  email : Option String
  userId : Option String
  username : Option String
  status : OrderStatus
  createdAt : Nat
  paidAt : Option Nat
  deliveredAt : Option Nat
  tradeNo : Option String
  cardKey : Option String
  deriving DecidableEq, Repr

structure DB where
  products : List Product
  orders : List Order
  cards : List Card
  deriving DecidableEq, Repr

/-- Hold TTL: `INTERVAL '1 minute'` in seconds. -/
def HOLD_TTL : Nat := 60

/-- Pending-order TTL: `INTERVAL '5 minutes'` in seconds. -/
def PENDING_TTL : Nat := 300

/-- Amount-comparison epsilon of the notification handler (`0.01`). -/
def EPSILON : ℚ := 1 / 100

/-- `reserved_at IS NULL OR reserved_at < NOW() - INTERVAL '1 minute'`. -/
def reservationFreeOrExpired (now : Nat) (c : Card) : Bool :=
  match c.reservedAt with
  | none => true
  | some r => decide (r + HOLD_TTL < now)

/-- Predicate of the allocation subqueries (`createOrder` reservation and the
settlement fallback claim): same product, unconsumed, hold absent or expired. -/
def cardAllocatable (now : Nat) (pid : String) (c : Card) : Bool :=
  c.productId == pid && !c.isUsed && reservationFreeOrExpired now c

/-- `getAvailableStock` of `createOrder`: count of allocatable cards. -/
def getAvailableStock (db : DB) (pid : String) (now : Nat) : Nat :=
  db.cards.countP (cardAllocatable now pid)

/-- Optional narrowing filter of `cancelExpiredOrders`. -/
structure ReapFilters where
  productId : Option String := none
  userId : Option String := none
  orderId : Option String := none
  deriving DecidableEq, Repr

/-- The `(x IS NULL OR column = x)` filter conditions of the reaper query. -/
def filterMatch (f : ReapFilters) (o : Order) : Bool :=
  (match f.productId with | none => true | some p => o.productId == p)
  && (match f.userId with | none => true | some u => o.userId == some u)
  && (match f.orderId with | none => true | some i => o.orderId == i)

/-- Rows updated by the reaper: `status = 'pending' AND
created_at < NOW() - INTERVAL '5 minutes'` and the filter matches. -/
def expiredPending (now : Nat) (f : ReapFilters) (o : Order) : Bool :=
  o.status == OrderStatus.pending
  && decide (o.createdAt + PENDING_TTL < now)
  && filterMatch f o

/-- `SET reserved_order_id = NULL, reserved_at = NULL`. -/
def clearReservation (c : Card) : Card :=
  { c with reservedOrderId := none, reservedAt := none }

/-- Release guard of the reaper card update: the card still points at one of
the just-cancelled orders and is unconsumed. -/
def releasable (expiredIds : List String) (c : Card) : Bool :=
  (match c.reservedOrderId with
   | some r => expiredIds.contains r
   | none => false)
  && !c.isUsed

/-- `cancelExpiredOrders` (queries.ts): cancel every pending order older than
`PENDING_TTL` matching the filter, return their ids (the source drops falsy
ids with `.filter(Boolean)`, hence the nonempty-string filter), then clear the
hold on every unconsumed card still reserved by one of those ids. -/
def cancelExpiredOrders (db : DB) (now : Nat) (f : ReapFilters) :
    DB × List String :=
  let expiredIds :=
    ((db.orders.filter (expiredPending now f)).map (fun o => o.orderId)).filter
      (fun s => !(s == ""))
  let newOrders := db.orders.map
    (fun o => if expiredPending now f o then { o with status := OrderStatus.cancelled } else o)
  let newCards := db.cards.map
    (fun c => if releasable expiredIds c then clearReservation c else c)
  ({ db with orders := newOrders, cards := newCards }, expiredIds)

/-! ## Settlement processor (`processNotify`) -/

structure NotifyParams where
  sign : String
  trade_status : String
  out_trade_no : String
  trade_no : String
  money : ℚ
  deriving DecidableEq, Repr

structure HttpResponse where
  body : String
  status : Nat
  deriving DecidableEq, Repr

/-- `SET is_used = true, used_at = NOW(), reserved_order_id = NULL,
reserved_at = NULL`. -/
def markConsumed (now : Nat) (c : Card) : Card :=
  { c with isUsed := true, usedAt := some now,
           reservedOrderId := none, reservedAt := none }

/-- `WHERE reserved_order_id = orderId AND COALESCE(is_used, false) = false`. -/
def reservedForOrder (orderId : String) (c : Card) : Bool :=
  c.reservedOrderId == some orderId && !c.isUsed

/-- First settlement claim: consume every card still reserved by the order
(the SQL has no LIMIT) and return the first returned `card_key` (`rows[0]`). -/
def claimReservedCards (cards : List Card) (orderId : String) (now : Nat) :
    List Card × Option String :=
  (cards.map (fun c => if reservedForOrder orderId c then markConsumed now c else c),
   ((cards.filter (reservedForOrder orderId)).head?).map (fun c => c.cardKey))

/-- `UPDATE ... WHERE id = (SELECT id ... LIMIT 1)`: update the first row
satisfying the predicate, return it; leave everything else in place. -/
def claimFirst (pred : Card → Bool) (upd : Card → Card) :
    List Card → List Card × Option Card
  | [] => ([], none)
  | c :: cs =>
    if pred c then (upd c :: cs, some c)
    else
      let r := claimFirst pred upd cs
      (c :: r.1, r.2)

/-- Settlement fallback claim: consume the first allocatable card of the
product (free or expired hold), returning its key. -/
def claimFallbackCard (cards : List Card) (pid : String) (now : Nat) :
    List Card × Option String :=
  let r := claimFirst (cardAllocatable now pid) (markConsumed now) cards
  (r.1, r.2.map (fun c => c.cardKey))

/-- `UPDATE orders SET status = 'delivered', ... WHERE order_id = oid`. -/
def setDelivered (orders : List Order) (oid : String) (now : Nat)
    (tn k : String) : List Order :=
  orders.map (fun o =>
    if o.orderId == oid then
      { o with status := OrderStatus.delivered, paidAt := some now,
               deliveredAt := some now, tradeNo := some tn, cardKey := some k }
    else o)

/-- `UPDATE orders SET status = 'paid', paid_at, trade_no WHERE order_id = oid`
(the paid-but-no-stock branch). -/
def setPaidNoStock (orders : List Order) (oid : String) (now : Nat)
    (tn : String) : List Order :=
  orders.map (fun o =>
    if o.orderId == oid then
      { o with status := OrderStatus.paid, paidAt := some now, tradeNo := some tn }
    else o)

/-- `db.query.orders.findFirst(where eq(orders.orderId, orderId))`. -/
def findOrder (db : DB) (oid : String) : Option Order :=
  db.orders.find? (fun o => o.orderId == oid)

/-- `processNotify` of the notification route.  `computedSign` is the md5 of
the canonical parameter string with the merchant key (crypto collaborator). -/
def processNotify (computedSign : String) (db : DB) (now : Nat)
    (p : NotifyParams) : DB × HttpResponse :=
  if p.sign != computedSign then
    (db, { body := "fail", status := 400 })
  else if p.trade_status == "TRADE_SUCCESS" then
    match findOrder db p.out_trade_no with
    | none => (db, { body := "success", status := 200 })
    | some order =>
      if |p.money - order.amount| > EPSILON then
        (db, { body := "fail", status := 400 })
      else if order.status == OrderStatus.pending
              || order.status == OrderStatus.cancelled then
        let step1 := claimReservedCards db.cards p.out_trade_no now
        let step2 :=
          match step1.2 with
          | some k => (step1.1, some k)
          | none => claimFallbackCard step1.1 order.productId now
        match step2.2 with
        | some k =>
          ({ db with cards := step2.1,
                     orders := setDelivered db.orders p.out_trade_no now p.trade_no k },
           { body := "success", status := 200 })
        | none =>
          ({ db with cards := step2.1,
                     orders := setPaidNoStock db.orders p.out_trade_no now p.trade_no },
           { body := "success", status := 200 })
      else (db, { body := "success", status := 200 })
  else (db, { body := "success", status := 200 })

/-! ## Checkout (`createOrder`) -/

structure SessionUser where
  id : String
  email : Option String
  username : Option String
  deriving DecidableEq, Repr

structure PayParams where
  out_trade_no : String
  name : String
  money : ℚ
  deriving DecidableEq, Repr

inductive CreateOrderResult where
  | err (error : String)
  | ok (params : PayParams)
  deriving DecidableEq, Repr

/-- JavaScript truthiness of an optional string: the empty string is falsy. -/
def jsStr (s : Option String) : Option String :=
  match s with
  | some "" => none
  | x => x

/-- JavaScript `a || b` on optional strings. -/
def jsOrStr (a b : Option String) : Option String :=
  match jsStr a with
  | some s => some s
  | none => b

/-- `const currentUserId = user?.id` under the truthiness guards. -/
def effectiveUserId (user : Option SessionUser) : Option String :=
  jsStr (user.map (fun u => u.id))

/-- `const currentUserEmail = email || user?.email` under the truthiness
guards (also the value stored in the inserted order row). -/
def effectiveEmail (email : Option String) (user : Option SessionUser) :
    Option String :=
  jsStr (jsOrStr email (user.bind (fun u => u.email)))

/-- One condition of the purchase-limit count: same product, matching user id
or email (only the available keys contribute), status paid or delivered. -/
def buyerOrderMatch (pid : String) (uid uem : Option String) (o : Order) : Bool :=
  o.productId == pid
  && ((match uid with | some u => o.userId == some u | none => false)
      || (match uem with | some e => o.email == some e | none => false))
  && (o.status == OrderStatus.paid || o.status == OrderStatus.delivered)

/-- The purchase-limit count query of `createOrder`. -/
def countBuyerOrders (orders : List Order) (pid : String)
    (uid uem : Option String) : Nat :=
  orders.countP (buyerOrderMatch pid uid uem)

/-- Reservation claim of `reserveAndCreate`: first allocatable card gets
`reserved_order_id = orderId, reserved_at = NOW()`. -/
def reserveCard (cards : List Card) (orderId : String) (pid : String)
    (now : Nat) : List Card × Option Card :=
  claimFirst (cardAllocatable now pid)
    (fun c => { c with reservedOrderId := some orderId, reservedAt := some now })
    cards

/-- The order row inserted by `reserveAndCreate`. -/
def newPendingOrder (product : Product) (newOrderId : String)
    (em uidv un : Option String) (now : Nat) : Order :=
  { orderId := newOrderId, productId := product.id, productName := product.name,
    amount := product.price, email := em, userId := uidv, username := un,
    status := OrderStatus.pending, createdAt := now, paidAt := none,
    deliveredAt := none, tradeNo := none, cardKey := none }

/-- `reserveAndCreate` plus the payment-descriptor return: atomically claim a
card for the new order and insert the pending order row; on failure the
transaction rolls back and the caller sees `stock_locked`. -/
def createOrderReserve (db1 : DB) (now : Nat) (product : Product)
    (email : Option String) (user : Option SessionUser) (newOrderId : String) :
    DB × CreateOrderResult :=
  let r := reserveCard db1.cards newOrderId product.id now
  match r.2 with
  | none => (db1, CreateOrderResult.err ("buy.stockLocked"))
  | some _ =>
    ({ db1 with cards := r.1,
                orders := db1.orders ++
                  [newPendingOrder product newOrderId
                    (effectiveEmail email user) (effectiveUserId user)
                    (jsStr (user.bind (fun u => u.username))) now] },
     CreateOrderResult.ok
       { out_trade_no := newOrderId, name := product.name, money := product.price })

/-- `createOrder` of the checkout server action: product lookup, best-effort
expiry reap for the product, stock check, purchase-limit check, then the
atomic reserve-and-insert. -/
def createOrder (db : DB) (now : Nat) (productId : String)
    (email : Option String) (user : Option SessionUser) (newOrderId : String) :
    DB × CreateOrderResult :=
  match db.products.find? (fun pr => pr.id == productId) with
  | none => (db, CreateOrderResult.err ("buy.productNotFound"))
  | some product =>
    let db1 := (cancelExpiredOrders db now { productId := some productId }).1
    if getAvailableStock db1 productId now == 0 then
      (db1, CreateOrderResult.err ("buy.outOfStock"))
    else
      let uid := effectiveUserId user
      let uem := effectiveEmail email user
      if product.purchaseLimit > 0 && (uid.isSome || uem.isSome) then
        if countBuyerOrders db1.orders productId uid uem ≥ product.purchaseLimit then
          (db1, CreateOrderResult.err ("buy.limitExceeded"))
        else createOrderReserve db1 now product email user newOrderId
      else createOrderReserve db1 now product email user newOrderId

/-! ## Concrete fixtures for witnesses and counterexamples -/

/-- A stock unit of product `p1` freshly held by order `O2`. -/
def cardHeldByO2 : Card :=
  { id := 1, productId := "p1", cardKey := "K1", isUsed := false,
    usedAt := none, reservedOrderId := some "O2", reservedAt := some 1000 }

/-- A free, unreserved stock unit of product `p1`. -/
def freeCard : Card :=
  { id := 2, productId := "p1", cardKey := "K2", isUsed := false,
    usedAt := none, reservedOrderId := none, reservedAt := none }

/-- A consumed stock unit of product `p1`, still carrying a stale hold tag. -/
def usedCard : Card :=
  { id := 3, productId := "p1", cardKey := "K3", isUsed := true,
    usedAt := some 500, reservedOrderId := some "O1", reservedAt := some 400 }

/-- A pending order `O1` for product `p1`, amount 5, created at t = 900. -/
def pendingO1 : Order :=
  { orderId := "O1", productId := "p1", productName := "P", amount := 5,
    email := none, userId := none, username := none,
    status := OrderStatus.pending, createdAt := 900, paidAt := none,
    deliveredAt := none, tradeNo := none, cardKey := none }

/-- The same order already settled (`paid`). -/
def paidO1 : Order :=
  { pendingO1 with status := OrderStatus.paid, paidAt := some 950,
                   tradeNo := some "T0" }

/-- A delivered order for product `p1` by buyer `u1`. -/
def deliveredU1 : Order :=
  { orderId := "O0", productId := "p1", productName := "P", amount := 5,
    email := some "u1@x", userId := some "u1", username := none,
    status := OrderStatus.delivered, createdAt := 100, paidAt := some 150,
    deliveredAt := some 150, tradeNo := some "T9", cardKey := some "K0" }

/-- An active product `p1` with purchase limit 1. -/
def activeP1 : Product :=
  { id := "p1", name := "P", price := 5, isActive := true, purchaseLimit := 1 }

/-- An inactive product `p1` without purchase limit. -/
def inactiveP1 : Product :=
  { id := "p1", name := "P", price := 5, isActive := false, purchaseLimit := 0 }

/-- A buyer session. -/
def buyerU1 : SessionUser := { id := "u1", email := some "u1@x", username := none }

/-- A matching, correctly signed TRADE_SUCCESS notification for `O1`
(`computedSign` fixed to the string `k` in the fixtures). -/
def okParams : NotifyParams :=
  { sign := "k", trade_status := "TRADE_SUCCESS", out_trade_no := "O1",
    trade_no := "TN", money := 5 }

/-- The same notification with a tampered amount (6 instead of 5). -/
def tamperedParams : NotifyParams := { okParams with money := 6 }

/-- An empty store. -/
def noOrderDB : DB := { products := [], orders := [], cards := [] }

/-- Store with the pending order `O1` and its former unit now held by `O2`. -/
def pendingDB : DB := { products := [], orders := [pendingO1], cards := [cardHeldByO2] }

/-- Store in which `O1` is already settled. -/
def paidDB : DB := { products := [], orders := [paidO1], cards := [cardHeldByO2] }

/-- Store with the pending order `O1` and no stock units at all. -/
def noStockDB : DB := { products := [], orders := [pendingO1], cards := [] }

/-- Store with an inactive product that still has a free stock unit. -/
def inactiveDB : DB :=
  { products := [inactiveP1], orders := [], cards := [freeCard] }

/-- Store where buyer `u1` already exhausted the purchase limit of `p1`
(one delivered order against a limit of 1) and a unit is still free. -/
def limitReachedDB : DB :=
  { products := [activeP1], orders := [deliveredU1], cards := [freeCard] }

/-- The same situation with the card table empty (out of stock). -/
def limitReachedNoStockDB : DB :=
  { products := [activeP1], orders := [deliveredU1], cards := [] }

/-- An unconsumed stock unit still holding the stale reservation of `O1`. -/
def heldByO1Card : Card :=
  { id := 4, productId := "p1", cardKey := "K4", isUsed := false,
    usedAt := none, reservedOrderId := some "O1", reservedAt := some 900 }

/-- Store the reaper runs on: the stale pending `O1`, its unconsumed held
unit, and a consumed unit still tagged with `O1`. -/
def reaperDB : DB :=
  { products := [], orders := [pendingO1], cards := [heldByO1Card, usedCard] }

/-- Store whose only unit is consumed, with a pending order racing over it. -/
def usedDB : DB :=
  { products := [activeP1], orders := [pendingO1], cards := [usedCard] }

/-- Pointwise preservation of consumed rows: every card already consumed in
`pre` is still present, unchanged, at the same position in `post`. -/
def usedPreserved (pre post : List Card) : Prop :=
  ∀ (i : Nat) (c : Card), pre[i]? = some c → c.isUsed = true → post[i]? = some c

/-- `O1` after the no-stock settlement branch ran at t = 1010. -/
def paidAfterNoStockO1 : Order :=
  { pendingO1 with status := OrderStatus.paid, paidAt := some 1010,
                   tradeNo := some "TN" }

/-! ## General lemmas -/

theorem claimFirst_none (pred : Card → Bool) (upd : Card → Card) (l : List Card)
    (h : ∀ c ∈ l, pred c = false) : claimFirst pred upd l = (l, none) := by
  induction l with
  | nil => rfl
  | cons c cs ih =>
    have hc : pred c = false := h c (List.mem_cons_self c cs)
    have ihs := ih (fun d hd => h d (List.mem_cons_of_mem c hd))
    simp [claimFirst, hc, ihs]

theorem claimReservedCards_none (oid : String) (now : Nat) (cards : List Card)
    (h : ∀ c ∈ cards, reservedForOrder oid c = false) :
    claimReservedCards cards oid now = (cards, none) := by
  have h1 : cards.filter (reservedForOrder oid) = [] := by
    rw [List.filter_eq_nil_iff]
    intro c hc
    simp [h c hc]
  have h2 : cards.map
      (fun c => if reservedForOrder oid c then markConsumed now c else c) = cards := by
    conv_rhs => rw [← List.map_id cards]
    exact List.map_congr_left (fun c hc => by simp [h c hc])
  simp [claimReservedCards, h1, h2]

theorem claimFallbackCard_none (pid : String) (now : Nat) (cards : List Card)
    (h : ∀ c ∈ cards, cardAllocatable now pid c = false) :
    claimFallbackCard cards pid now = (cards, none) := by
  simp [claimFallbackCard, claimFirst_none _ _ cards h]

/-! ## C1: settlement is idempotent under replay -/

/-- Claim C1: for an order whose status is already paid or delivered, a valid
TRADE_SUCCESS notification (signature ok, amount within epsilon) mutates no
order or card state and is acknowledged as a no-op success; conversely any
invocation that does mutate state found the order pending or cancelled —
only those states are eligible to settle. -/
theorem settlement_replay_noop (cs : String) (db : DB) (now : Nat)
    (p : NotifyParams) (o : Order)
    (hsign : p.sign = cs) (hts : p.trade_status = "TRADE_SUCCESS")
    (hfind : findOrder db p.out_trade_no = some o)
    (hamt : ¬(|p.money - o.amount| > EPSILON)) :
    (o.status = OrderStatus.paid ∨ o.status = OrderStatus.delivered →
       processNotify cs db now p = (db, { body := "success", status := 200 }))
    ∧ ((processNotify cs db now p).1 ≠ db →
       o.status = OrderStatus.pending ∨ o.status = OrderStatus.cancelled) := by
  constructor
  · intro hst
    have hguard : (o.status == OrderStatus.pending
        || o.status == OrderStatus.cancelled) = false := by
      rcases hst with h | h <;> simp [h]
    unfold processNotify
    rw [hsign, hts, hfind]
    simp [if_neg hamt, hguard]
  · intro hmut
    by_contra hcon
    push_neg at hcon
    have hguard : (o.status == OrderStatus.pending
        || o.status == OrderStatus.cancelled) = false := by
      simp [hcon.1, hcon.2]
    apply hmut
    unfold processNotify
    rw [hsign, hts, hfind]
    simp [if_neg hamt, hguard]

/-- Witness for C1 at a concrete already-paid order. -/
theorem settlement_replay_noop_witness :
    okParams.sign = "k" ∧ okParams.trade_status = "TRADE_SUCCESS"
    ∧ findOrder paidDB okParams.out_trade_no = some paidO1
    ∧ ¬(|okParams.money - paidO1.amount| > EPSILON)
    ∧ processNotify "k" paidDB 1010 okParams
        = (paidDB, { body := "success", status := 200 }) := by
  refine ⟨rfl, rfl, rfl, by with_unfolding_all decide, ?_⟩
  exact (settlement_replay_noop "k" paidDB 1010 okParams paidO1 rfl rfl rfl
    (by with_unfolding_all decide)).1 (Or.inl rfl)

/-! ## C2: notification for an unknown order id -/

/-- Counterexample to C2 as stated: a correctly signed TRADE_SUCCESS
notification whose order id matches no order is answered with the plain
success acknowledgment (HTTP 200, body success), not with an error. -/
theorem unknown_order_counterexample :
    okParams.sign = "k" ∧ okParams.trade_status = "TRADE_SUCCESS"
    ∧ findOrder noOrderDB okParams.out_trade_no = none
    ∧ processNotify "k" noOrderDB 1010 okParams
        = (noOrderDB, { body := "success", status := 200 }) := by
  with_unfolding_all decide

/-- Claim C2 as amended: a signed TRADE_SUCCESS notification for a
non-existent order id mutates no state, and is acknowledged with the success
response rather than rejected with an error. -/
theorem unknown_order_noop (cs : String) (db : DB) (now : Nat) (p : NotifyParams)
    (hsign : p.sign = cs) (hts : p.trade_status = "TRADE_SUCCESS")
    (hfind : findOrder db p.out_trade_no = none) :
    processNotify cs db now p = (db, { body := "success", status := 200 }) := by
  unfold processNotify
  rw [hsign, hts, hfind]
  simp

/-- Witness for the amended C2. -/
theorem unknown_order_noop_witness :
    okParams.sign = "k" ∧ okParams.trade_status = "TRADE_SUCCESS"
    ∧ findOrder noOrderDB okParams.out_trade_no = none
    ∧ processNotify "k" noOrderDB 77 okParams
        = (noOrderDB, { body := "success", status := 200 }) :=
  ⟨rfl, rfl, rfl, unknown_order_noop "k" noOrderDB 77 okParams rfl rfl rfl⟩

/-! ## C3: amount tampering is rejected -/

/-- Claim C3: a signed TRADE_SUCCESS notification for an existing order whose
amount differs from the order's frozen amount by more than the 0.01 epsilon is
rejected with a 400 error response and mutates no order or card state. -/
theorem amount_mismatch_rejected (cs : String) (db : DB) (now : Nat)
    (p : NotifyParams) (o : Order)
    (hsign : p.sign = cs) (hts : p.trade_status = "TRADE_SUCCESS")
    (hfind : findOrder db p.out_trade_no = some o)
    (hamt : |p.money - o.amount| > EPSILON) :
    processNotify cs db now p = (db, { body := "fail", status := 400 }) := by
  unfold processNotify
  rw [hsign, hts, hfind]
  simp [if_pos hamt]

/-- Witness for C3: the tampered notification (amount 6 against the frozen 5)
is rejected on the pending order even though its signature is valid. -/
theorem amount_mismatch_rejected_witness :
    tamperedParams.sign = "k" ∧ tamperedParams.trade_status = "TRADE_SUCCESS"
    ∧ findOrder pendingDB tamperedParams.out_trade_no = some pendingO1
    ∧ |tamperedParams.money - pendingO1.amount| > EPSILON
    ∧ processNotify "k" pendingDB 1010 tamperedParams
        = (pendingDB, { body := "fail", status := 400 }) :=
  ⟨rfl, rfl, rfl, by with_unfolding_all decide,
   amount_mismatch_rejected "k" pendingDB 1010 tamperedParams pendingO1 rfl rfl rfl
     (by with_unfolding_all decide)⟩

/-! ## The no-claimable-unit settlement branch (shared by C4 and C9) -/

/-- When an eligible order passes all gates but neither its held unit nor any
fallback unit can be claimed, the handler marks the order paid and returns the
success acknowledgment; the card table is untouched. -/
theorem processNotify_noStock (cs : String) (db : DB) (now : Nat)
    (p : NotifyParams) (o : Order)
    (hsign : p.sign = cs) (hts : p.trade_status = "TRADE_SUCCESS")
    (hfind : findOrder db p.out_trade_no = some o)
    (hamt : ¬(|p.money - o.amount| > EPSILON))
    (hst : o.status = OrderStatus.pending ∨ o.status = OrderStatus.cancelled)
    (hres : ∀ c ∈ db.cards, reservedForOrder p.out_trade_no c = false)
    (halloc : ∀ c ∈ db.cards, cardAllocatable now o.productId c = false) :
    processNotify cs db now p =
      ({ db with orders := setPaidNoStock db.orders p.out_trade_no now p.trade_no },
       { body := "success", status := 200 }) := by
  have hguard : (o.status == OrderStatus.pending
      || o.status == OrderStatus.cancelled) = true := by
    rcases hst with h | h <;> simp [h]
  unfold processNotify
  rw [hsign, hts, hfind]
  rw [claimReservedCards_none p.out_trade_no now db.cards hres]
  simp only [if_neg hamt, hguard]
  rw [claimFallbackCard_none o.productId now db.cards halloc]
  simp

/-- Rows of `setPaidNoStock` whose id is the settled one are paid and stamped. -/
theorem setPaidNoStock_mem (orders : List Order) (oid : String) (now : Nat)
    (tn : String) :
    ∀ o1 ∈ setPaidNoStock orders oid now tn, o1.orderId = oid →
      o1.status = OrderStatus.paid ∧ o1.paidAt = some now ∧ o1.tradeNo = some tn := by
  intro o1 ho1 hid
  rcases List.mem_map.mp ho1 with ⟨o0, _, rfl⟩
  by_cases h0 : (o0.orderId == oid) = true
  · simp [h0]
  · simp only [h0, if_false] at hid ⊢
    exact absurd hid (by simpa using h0)

/-! ## C4: valid notification for a pending order whose unit was re-held -/

/-- Counterexample to C4 as stated: `O1` is pending, its former unit is now
freshly held by `O2` and no other unit exists; the valid notification is NOT
rejected — the handler acknowledges success and moves `O1` to paid (the
no-stock branch), so `O1` does not remain pending. -/
theorem stale_hold_counterexample :
    pendingO1.status = OrderStatus.pending
    ∧ pendingDB.orders = [pendingO1]
    ∧ pendingDB.cards = [cardHeldByO2]
    ∧ cardHeldByO2.reservedOrderId = some "O2"
    ∧ cardHeldByO2.reservedAt = some 1000
    ∧ okParams.out_trade_no = "O1"
    ∧ processNotify "k" pendingDB 1010 okParams
        = ({ pendingDB with orders := [paidAfterNoStockO1] },
           { body := "success", status := 200 }) := by
  with_unfolding_all decide

/-- Claim C4 as amended: when a valid TRADE_SUCCESS notification arrives for a
still-pending order whose formerly held unit is now held by a different order
and no other unit of the product is free or expired-held, the notification is
acknowledged with success and the order is set to paid (the no-stock
fallback), not left pending; no card is touched. -/
theorem stale_hold_settles_paid (cs : String) (db : DB) (now : Nat)
    (p : NotifyParams) (o : Order)
    (hsign : p.sign = cs) (hts : p.trade_status = "TRADE_SUCCESS")
    (hfind : findOrder db p.out_trade_no = some o)
    (hamt : ¬(|p.money - o.amount| > EPSILON))
    (hpend : o.status = OrderStatus.pending)
    (hres : ∀ c ∈ db.cards, reservedForOrder p.out_trade_no c = false)
    (halloc : ∀ c ∈ db.cards, cardAllocatable now o.productId c = false) :
    (processNotify cs db now p).2 = { body := "success", status := 200 }
    ∧ (processNotify cs db now p).1.cards = db.cards
    ∧ ∀ o1 ∈ (processNotify cs db now p).1.orders, o1.orderId = p.out_trade_no →
        o1.status = OrderStatus.paid := by
  have hmain := processNotify_noStock cs db now p o hsign hts hfind hamt
    (Or.inl hpend) hres halloc
  refine ⟨by rw [hmain], by rw [hmain], ?_⟩
  rw [hmain]
  intro o1 ho1 hid
  exact (setPaidNoStock_mem db.orders p.out_trade_no now p.trade_no o1 ho1 hid).1

/-- Witness for the amended C4, on the concrete re-held-unit store. -/
theorem stale_hold_settles_paid_witness :
    pendingO1.status = OrderStatus.pending
    ∧ (processNotify "k" pendingDB 1010 okParams).1.cards = pendingDB.cards :=
  ⟨rfl,
   (stale_hold_settles_paid "k" pendingDB 1010 okParams pendingO1 rfl rfl rfl
     (by with_unfolding_all decide) rfl (by decide) (by decide)).2.1⟩

/-! ## C9: all gates pass but no unit is claimable -/

/-- Claim C9: an eligible (pending or cancelled) order that passes all
settlement gates but for which no stock unit can be claimed at all is set to
paid (not delivered), stamped with the paid timestamp and the gateway
transaction reference, the card table is untouched, and the handler still
acknowledges success to the gateway. -/
theorem no_claimable_unit_marks_paid (cs : String) (db : DB) (now : Nat)
    (p : NotifyParams) (o : Order)
    (hsign : p.sign = cs) (hts : p.trade_status = "TRADE_SUCCESS")
    (hfind : findOrder db p.out_trade_no = some o)
    (hamt : ¬(|p.money - o.amount| > EPSILON))
    (hst : o.status = OrderStatus.pending ∨ o.status = OrderStatus.cancelled)
    (hres : ∀ c ∈ db.cards, reservedForOrder p.out_trade_no c = false)
    (halloc : ∀ c ∈ db.cards, cardAllocatable now o.productId c = false) :
    (processNotify cs db now p).2 = { body := "success", status := 200 }
    ∧ (processNotify cs db now p).1.cards = db.cards
    ∧ ∀ o1 ∈ (processNotify cs db now p).1.orders, o1.orderId = p.out_trade_no →
        o1.status = OrderStatus.paid ∧ o1.paidAt = some now
          ∧ o1.tradeNo = some p.trade_no := by
  have hmain := processNotify_noStock cs db now p o hsign hts hfind hamt hst hres halloc
  refine ⟨by rw [hmain], by rw [hmain], ?_⟩
  rw [hmain]
  exact setPaidNoStock_mem db.orders p.out_trade_no now p.trade_no

/-- Witness for C9 on a store with a pending order and an empty card table. -/
theorem no_claimable_unit_marks_paid_witness :
    (processNotify "k" noStockDB 999 okParams).2
        = { body := "success", status := 200 }
    ∧ (processNotify "k" noStockDB 999 okParams).1.cards = noStockDB.cards :=
  ⟨(no_claimable_unit_marks_paid "k" noStockDB 999 okParams pendingO1 rfl rfl rfl
      (by with_unfolding_all decide) (Or.inl rfl) (by decide) (by decide)).1,
   (no_claimable_unit_marks_paid "k" noStockDB 999 okParams pendingO1 rfl rfl rfl
      (by with_unfolding_all decide) (Or.inl rfl) (by decide) (by decide)).2.1⟩

/-! ## The reserve-and-insert tail of `createOrder` -/

/-- `createOrderReserve` either fails with stock_locked or succeeds with a
payment descriptor; it never reports any other error. -/
theorem createOrderReserve_result (db1 : DB) (now : Nat) (product : Product)
    (email : Option String) (user : Option SessionUser) (noid : String) :
    (createOrderReserve db1 now product email user noid).2
        = CreateOrderResult.err ("buy.stockLocked")
    ∨ ∃ pp, (createOrderReserve db1 now product email user noid).2
        = CreateOrderResult.ok pp := by
  unfold createOrderReserve
  rcases h : (reserveCard db1.cards noid product.id now).2 with _ | c
  · left
    simp [h]
  · right
    refine ⟨{ out_trade_no := noid, name := product.name, money := product.price }, ?_⟩
    simp [h]

/-! ## C5: product gate of `createOrder` -/

/-- Counterexample to C5 as stated: an inactive product that exists is not
rejected — `createOrder` sails past the product gate and succeeds, returning
a payment descriptor. -/
theorem inactive_product_counterexample :
    inactiveP1.isActive = false
    ∧ inactiveDB.products = [inactiveP1]
    ∧ (createOrder inactiveDB 0 "p1" none none "O9").2
        = CreateOrderResult.ok { out_trade_no := "O9", name := "P", money := 5 } := by
  with_unfolding_all decide

/-- Claim C5 as amended: `createOrder` rejects exactly the non-existent
product (returning the not-found failure on the unchanged store, creating no
order and reserving no stock); an existing product is never rejected as
not-found — the active flag is not consulted. -/
theorem product_gate (db : DB) (now : Nat) (pid : String)
    (email : Option String) (user : Option SessionUser) (noid : String) :
    (db.products.find? (fun pr => pr.id == pid) = none →
       createOrder db now pid email user noid
         = (db, CreateOrderResult.err ("buy.productNotFound")))
    ∧ ∀ product, db.products.find? (fun pr => pr.id == pid) = some product →
        (createOrder db now pid email user noid).2
          ≠ CreateOrderResult.err ("buy.productNotFound") := by
  constructor
  · intro h
    unfold createOrder
    rw [h]
  · intro product h hcon
    simp only [createOrder, h] at hcon
    split at hcon
    · simp at hcon
    · split at hcon
      · split at hcon
        · simp at hcon
        · rcases createOrderReserve_result
            (cancelExpiredOrders db now { productId := some pid }).1 now product
            email user noid with h1 | ⟨pp, h1⟩ <;> rw [h1] at hcon <;> simp at hcon
      · rcases createOrderReserve_result
          (cancelExpiredOrders db now { productId := some pid }).1 now product
          email user noid with h1 | ⟨pp, h1⟩ <;> rw [h1] at hcon <;> simp at hcon

/-- Witness for the amended C5: unknown product id on the empty store. -/
theorem product_gate_witness :
    noOrderDB.products.find? (fun pr => pr.id == "p1") = none
    ∧ createOrder noOrderDB 5 "p1" none none "O9"
        = (noOrderDB, CreateOrderResult.err ("buy.productNotFound")) :=
  ⟨rfl, (product_gate noOrderDB 5 "p1" none none "O9").1 rfl⟩

/-! ## C6: purchase-limit enforcement -/

/-- Counterexample to C6 as stated: buyer `u1` has 1 delivered order against
a limit of 1, but with the card table empty the call fails with the
out-of-stock error, not with LimitExceeded — the stock gate runs first. -/
theorem purchase_limit_counterexample :
    activeP1.purchaseLimit = 1
    ∧ countBuyerOrders limitReachedNoStockDB.orders "p1" (some "u1") (some "u1@x") = 1
    ∧ (createOrder limitReachedNoStockDB 0 "p1" (some "u1@x") (some buyerU1) "O9").2
        = CreateOrderResult.err ("buy.outOfStock") := by
  with_unfolding_all decide

/-- Claim C6 as amended: for a product with limit L > 0 and a buyer
identified by user id and/or email, provided the stock gate passes, a buyer
count of paid/delivered orders at L or above fails with LimitExceeded, and a
count below L is never rejected for the limit. -/
theorem purchase_limit_enforced (db : DB) (now : Nat) (pid : String)
    (email : Option String) (user : Option SessionUser) (noid : String)
    (product : Product)
    (hfind : db.products.find? (fun pr => pr.id == pid) = some product)
    (hlim : 0 < product.purchaseLimit)
    (hpresent : (effectiveUserId user).isSome = true
      ∨ (effectiveEmail email user).isSome = true)
    (hstock : getAvailableStock
      (cancelExpiredOrders db now { productId := some pid }).1 pid now ≠ 0) :
    (product.purchaseLimit ≤ countBuyerOrders
        (cancelExpiredOrders db now { productId := some pid }).1.orders pid
        (effectiveUserId user) (effectiveEmail email user) →
      createOrder db now pid email user noid
        = ((cancelExpiredOrders db now { productId := some pid }).1,
           CreateOrderResult.err ("buy.limitExceeded")))
    ∧ (countBuyerOrders
        (cancelExpiredOrders db now { productId := some pid }).1.orders pid
        (effectiveUserId user) (effectiveEmail email user) < product.purchaseLimit →
      (createOrder db now pid email user noid).2
        ≠ CreateOrderResult.err ("buy.limitExceeded")) := by
  have hguard : (decide (product.purchaseLimit > 0)
      && ((effectiveUserId user).isSome || (effectiveEmail email user).isSome)) = true := by
    rcases hpresent with h | h <;> simp [h, hlim]
  have hstockb : ((getAvailableStock
      (cancelExpiredOrders db now { productId := some pid }).1 pid now == 0)) = false := by
    simpa using hstock
  constructor
  · intro hcount
    simp only [createOrder, hfind, hstockb, hguard, Bool.false_eq_true, if_false,
      if_true, ge_iff_le]
    rw [if_pos hcount]
  · intro hcount hcon
    simp only [createOrder, hfind, hstockb, hguard, Bool.false_eq_true, if_false,
      if_true, ge_iff_le] at hcon
    rw [if_neg (not_le.mpr hcount)] at hcon
    rcases createOrderReserve_result
        (cancelExpiredOrders db now { productId := some pid }).1 now product
        email user noid with h1 | ⟨pp, h1⟩ <;> rw [h1] at hcon <;> simp at hcon

/-- Witness for the amended C6: limit 1 reached, stock available, so the call
fails with LimitExceeded. -/
theorem purchase_limit_enforced_witness :
    activeP1.purchaseLimit ≤ countBuyerOrders
        (cancelExpiredOrders limitReachedDB 0 { productId := some "p1" }).1.orders
        "p1" (effectiveUserId (some buyerU1))
        (effectiveEmail (some "u1@x") (some buyerU1))
    ∧ createOrder limitReachedDB 0 "p1" (some "u1@x") (some buyerU1) "O9"
        = ((cancelExpiredOrders limitReachedDB 0 { productId := some "p1" }).1,
           CreateOrderResult.err ("buy.limitExceeded")) :=
  ⟨by decide,
   (purchase_limit_enforced limitReachedDB 0 "p1" (some "u1@x") (some buyerU1) "O9"
      activeP1 rfl (by decide) (Or.inl (by decide)) (by decide)).1 (by decide)⟩

/-! ## C10: anonymous checkout bypasses the purchase limit -/

/-- Claim C10: with no authenticated user and no email, the purchase-limit
check is skipped entirely — `createOrder` never fails with LimitExceeded, no
matter how many paid/delivered orders exist for the product. -/
theorem anonymous_bypasses_limit (db : DB) (now : Nat) (pid : String)
    (noid : String) (product : Product)
    (hfind : db.products.find? (fun pr => pr.id == pid) = some product)
    (_hlim : 0 < product.purchaseLimit) :
    (createOrder db now pid none none noid).2
      ≠ CreateOrderResult.err ("buy.limitExceeded") := by
  intro hcon
  have huid : effectiveUserId (none : Option SessionUser) = none := rfl
  have huem : effectiveEmail none (none : Option SessionUser) = none := rfl
  simp only [createOrder, hfind, huid, huem, Option.isSome_none, Bool.or_self,
    Bool.and_false, Bool.false_eq_true, if_false] at hcon
  split at hcon
  · simp at hcon
  · rcases createOrderReserve_result
      (cancelExpiredOrders db now { productId := some pid }).1 now product
      none none noid with h1 | ⟨pp, h1⟩ <;> rw [h1] at hcon <;> simp at hcon

/-- Witness for C10: the limit of `p1` is exhausted, yet the anonymous call
is not rejected for the limit. -/
theorem anonymous_bypasses_limit_witness :
    limitReachedDB.products.find? (fun pr => pr.id == "p1") = some activeP1
    ∧ 0 < activeP1.purchaseLimit
    ∧ (createOrder limitReachedDB 0 "p1" none none "O9").2
        ≠ CreateOrderResult.err ("buy.limitExceeded") :=
  ⟨rfl, by decide,
   anonymous_bypasses_limit limitReachedDB 0 "p1" "O9" activeP1 rfl (by decide)⟩

/-! ## C7: the expiry reaper cancels exactly the stale pending orders -/

/-- The reaper's update guard, spelled out as a proposition. -/
theorem expiredPending_iff (now : Nat) (f : ReapFilters) (o : Order) :
    expiredPending now f o = true ↔
      (o.status = OrderStatus.pending ∧ o.createdAt + PENDING_TTL < now
        ∧ filterMatch f o = true) := by
  simp [expiredPending, Bool.and_eq_true, and_assoc]

/-- The reaper's release guard, spelled out as a proposition. -/
theorem releasable_iff (ids : List String) (c : Card) :
    releasable ids c = true ↔
      ((∃ r, c.reservedOrderId = some r ∧ r ∈ ids) ∧ c.isUsed = false) := by
  cases hr : c.reservedOrderId with
  | none => simp [releasable, hr]
  | some r => simp [releasable, hr, List.elem_iff]

/-- Claim C7: the reaper cancels exactly the pending orders older than
`PENDING_TTL` that match the filter, returns exactly their ids, and clears
the hold exactly on the unconsumed units still pointing at one of those ids,
leaving every other row untouched.  (The source drops a falsy order id from
the returned list, hence the nonempty-id hypothesis.) -/
theorem reaper_exact (db : DB) (now : Nat) (f : ReapFilters)
    (hne : ∀ o ∈ db.orders, o.orderId ≠ "") :
    (∀ s, s ∈ (cancelExpiredOrders db now f).2 ↔
      ∃ o, o ∈ db.orders ∧ o.orderId = s ∧ o.status = OrderStatus.pending
        ∧ o.createdAt + PENDING_TTL < now ∧ filterMatch f o = true)
    ∧ (∀ (i : Nat) (o : Order), db.orders[i]? = some o →
        (o.status = OrderStatus.pending ∧ o.createdAt + PENDING_TTL < now
            ∧ filterMatch f o = true →
          (cancelExpiredOrders db now f).1.orders[i]?
            = some { o with status := OrderStatus.cancelled })
        ∧ (¬(o.status = OrderStatus.pending ∧ o.createdAt + PENDING_TTL < now
            ∧ filterMatch f o = true) →
          (cancelExpiredOrders db now f).1.orders[i]? = some o))
    ∧ (∀ (i : Nat) (c : Card), db.cards[i]? = some c →
        ((∃ r, c.reservedOrderId = some r ∧ r ∈ (cancelExpiredOrders db now f).2)
            ∧ c.isUsed = false →
          (cancelExpiredOrders db now f).1.cards[i]? = some (clearReservation c))
        ∧ (c.isUsed = true →
          (cancelExpiredOrders db now f).1.cards[i]? = some c)
        ∧ ((∀ r, c.reservedOrderId = some r →
              r ∉ (cancelExpiredOrders db now f).2) →
          (cancelExpiredOrders db now f).1.cards[i]? = some c)) := by
  refine ⟨?_, ?_, ?_⟩
  · intro s
    simp only [cancelExpiredOrders]
    constructor
    · intro hs
      rcases List.mem_filter.mp hs with ⟨hmap, _⟩
      rcases List.mem_map.mp hmap with ⟨o, hof, rfl⟩
      rcases List.mem_filter.mp hof with ⟨ho, hexp⟩
      rcases (expiredPending_iff now f o).mp hexp with ⟨h1, h2, h3⟩
      exact ⟨o, ho, rfl, h1, h2, h3⟩
    · rintro ⟨o, ho, rfl, h1, h2, h3⟩
      refine List.mem_filter.mpr ⟨List.mem_map.mpr
        ⟨o, List.mem_filter.mpr ⟨ho, (expiredPending_iff now f o).mpr ⟨h1, h2, h3⟩⟩,
          rfl⟩, ?_⟩
      simpa using hne o ho
  · intro i o hio
    have horders : (cancelExpiredOrders db now f).1.orders[i]?
        = some (if expiredPending now f o then
            { o with status := OrderStatus.cancelled } else o) := by
      simp only [cancelExpiredOrders]
      rw [List.getElem?_map, hio]
      rfl
    constructor
    · intro hp
      rw [horders, if_pos ((expiredPending_iff now f o).mpr hp)]
    · intro hp
      rw [horders, if_neg fun h => hp ((expiredPending_iff now f o).mp h)]
  · intro i c hic
    have hcards : (cancelExpiredOrders db now f).1.cards[i]?
        = some (if releasable (cancelExpiredOrders db now f).2 c then
            clearReservation c else c) := by
      simp only [cancelExpiredOrders]
      rw [List.getElem?_map, hic]
      rfl
    refine ⟨?_, ?_, ?_⟩
    · intro hp
      rw [hcards,
        if_pos ((releasable_iff (cancelExpiredOrders db now f).2 c).mpr hp)]
    · intro hu
      rw [hcards, if_neg fun h => by
        have := ((releasable_iff (cancelExpiredOrders db now f).2 c).mp h).2
        rw [hu] at this
        exact absurd this (by simp)]
    · intro hnp
      rw [hcards, if_neg fun h => by
        rcases ((releasable_iff (cancelExpiredOrders db now f).2 c).mp h).1
          with ⟨r, hr, hrmem⟩
        exact hnp r hr hrmem]

/-- Witness for C7: at t = 1300 the pending order `O1` (created at 900) is
past the 300-second TTL; it is cancelled, reported, and the unit that was
consumed long ago but still tagged with `O1` is NOT released, while an
unconsumed unit tagged with `O1` is released. -/
theorem reaper_exact_witness :
    reaperDB.orders[0]? = some pendingO1
    ∧ (cancelExpiredOrders reaperDB 1300 { productId := some "p1" }).1.orders[0]?
        = some { pendingO1 with status := OrderStatus.cancelled }
    ∧ reaperDB.cards[0]? = some heldByO1Card
    ∧ (cancelExpiredOrders reaperDB 1300 { productId := some "p1" }).1.cards[0]?
        = some (clearReservation heldByO1Card)
    ∧ reaperDB.cards[1]? = some usedCard
    ∧ (cancelExpiredOrders reaperDB 1300 { productId := some "p1" }).1.cards[1]?
        = some usedCard := by
  have h := reaper_exact reaperDB 1300 { productId := some "p1" } (by decide)
  refine ⟨rfl, ?_, rfl, ?_, rfl, ?_⟩
  · exact (h.2.1 0 pendingO1 rfl).1 (by decide)
  · refine (h.2.2 0 heldByO1Card rfl).1 ⟨⟨"O1", rfl, ?_⟩, rfl⟩
    exact ((h.1 "O1").mpr ⟨pendingO1, by decide, rfl, rfl, by decide, by decide⟩)
  · exact (h.2.2 1 usedCard rfl).2.1 rfl

/-! ## C8: consumed is terminal -/

theorem usedPreserved_refl (l : List Card) : usedPreserved l l :=
  fun _ _ hi _ => hi

theorem usedPreserved_trans {a b c : List Card}
    (h1 : usedPreserved a b) (h2 : usedPreserved b c) : usedPreserved a c :=
  fun i x hi hu => h2 i x (h1 i x hi hu) hu

theorem usedPreserved_map_ite (pred : Card → Bool) (f : Card → Card)
    (l : List Card) (h : ∀ c, c.isUsed = true → pred c = false) :
    usedPreserved l (l.map (fun c => if pred c then f c else c)) := by
  intro i c hi hu
  rw [List.getElem?_map, hi]
  simp [h c hu]

theorem usedPreserved_claimFirst (pred : Card → Bool) (upd : Card → Card)
    (l : List Card) (h : ∀ c, c.isUsed = true → pred c = false) :
    usedPreserved l (claimFirst pred upd l).1 := by
  induction l with
  | nil =>
    intro i c hi _
    simp at hi
  | cons a as ih =>
    intro i c hi hu
    by_cases hp : pred a = true
    · cases i with
      | zero =>
        have hac : a = c := by simpa using hi
        rw [hac, h c hu] at hp
        exact absurd hp (by simp)
      | succ n =>
        simp only [claimFirst, hp, if_true, List.getElem?_cons_succ] at hi ⊢
        exact hi
    · have hp2 : pred a = false := by simpa using hp
      cases i with
      | zero =>
        simp only [claimFirst, hp2, Bool.false_eq_true, if_false]
        simpa using hi
      | succ n =>
        simp only [claimFirst, hp2, Bool.false_eq_true, if_false,
          List.getElem?_cons_succ] at hi ⊢
        exact ih n c hi hu

/-- The expiry release never touches a consumed unit. -/
theorem cancelExpiredOrders_usedPreserved (db : DB) (now : Nat) (f : ReapFilters) :
    usedPreserved db.cards (cancelExpiredOrders db now f).1.cards := by
  simp only [cancelExpiredOrders]
  exact usedPreserved_map_ite _ _ db.cards (fun c hc => by simp [releasable, hc])

/-- Neither settlement claim (held-unit or fallback) touches a consumed unit. -/
theorem processNotify_usedPreserved (cs : String) (db : DB) (now : Nat)
    (p : NotifyParams) :
    usedPreserved db.cards (processNotify cs db now p).1.cards := by
  have base : ∀ oid, usedPreserved db.cards (claimReservedCards db.cards oid now).1 :=
    fun oid => usedPreserved_map_ite _ _ db.cards
      (fun c hc => by simp [reservedForOrder, hc])
  have fb : ∀ oid pid, usedPreserved (claimReservedCards db.cards oid now).1
      (claimFallbackCard (claimReservedCards db.cards oid now).1 pid now).1 :=
    fun oid pid => usedPreserved_claimFirst _ _ _
      (fun c hc => by simp [cardAllocatable, hc])
  unfold processNotify
  split
  · exact usedPreserved_refl db.cards
  · split
    · split
      · exact usedPreserved_refl db.cards
      · split
        · exact usedPreserved_refl db.cards
        · split
          · rcases h2 : (claimReservedCards db.cards p.out_trade_no now).2 with _ | k
            · simp only [h2]
              split
              · exact usedPreserved_trans (base p.out_trade_no) (fb p.out_trade_no _)
              · exact usedPreserved_trans (base p.out_trade_no) (fb p.out_trade_no _)
            · simp only [h2]
              exact base p.out_trade_no
          · exact usedPreserved_refl db.cards
    · exact usedPreserved_refl db.cards

/-- The reserve-and-insert tail never touches a consumed unit. -/
theorem createOrderReserve_usedPreserved (db1 : DB) (now : Nat)
    (product : Product) (email : Option String) (user : Option SessionUser)
    (noid : String) :
    usedPreserved db1.cards (createOrderReserve db1 now product email user noid).1.cards := by
  unfold createOrderReserve
  rcases h : (reserveCard db1.cards noid product.id now).2 with _ | c
  · simp only [h]
    exact usedPreserved_refl db1.cards
  · simp only [h]
    exact usedPreserved_claimFirst _ _ _ (fun c hc => by simp [cardAllocatable, hc])

/-- Checkout (reap, then reserve) never touches a consumed unit. -/
theorem createOrder_usedPreserved (db : DB) (now : Nat) (pid : String)
    (email : Option String) (user : Option SessionUser) (noid : String) :
    usedPreserved db.cards (createOrder db now pid email user noid).1.cards := by
  have hreap : usedPreserved db.cards
      (cancelExpiredOrders db now { productId := some pid }).1.cards :=
    cancelExpiredOrders_usedPreserved db now { productId := some pid }
  unfold createOrder
  split
  · exact usedPreserved_refl db.cards
  · dsimp only
    split
    · exact hreap
    · split
      · split
        · exact hreap
        · exact usedPreserved_trans hreap (createOrderReserve_usedPreserved _ now _ email user noid)
      · exact usedPreserved_trans hreap (createOrderReserve_usedPreserved _ now _ email user noid)

/-- Claim C8: consumed is terminal — settlement (held-unit claim and fallback
claim), checkout reservation, and expiry release all leave every consumed
stock unit exactly as it was: it is never freed, never re-held, and never
reassigned, because every card-mutating update is conditioned on the unit
being unconsumed.  In particular a settlement racing an expiry release leaves
the unit consumed, never freed. -/
theorem consumed_is_terminal (cs : String) (db : DB) (now : Nat)
    (p : NotifyParams) (pid : String) (email : Option String)
    (user : Option SessionUser) (noid : String) (f : ReapFilters) :
    usedPreserved db.cards (processNotify cs db now p).1.cards
    ∧ usedPreserved db.cards (createOrder db now pid email user noid).1.cards
    ∧ usedPreserved db.cards (cancelExpiredOrders db now f).1.cards :=
  ⟨processNotify_usedPreserved cs db now p,
   createOrder_usedPreserved db now pid email user noid,
   cancelExpiredOrders_usedPreserved db now f⟩

/-- Witness for C8 on the store whose only unit is consumed. -/
theorem consumed_is_terminal_witness :
    usedDB.cards[0]? = some usedCard
    ∧ usedCard.isUsed = true
    ∧ (processNotify "k" usedDB 1010 okParams).1.cards[0]? = some usedCard
    ∧ (createOrder usedDB 1010 "p1" none none "O9").1.cards[0]? = some usedCard
    ∧ (cancelExpiredOrders usedDB 1300 { productId := some "p1" }).1.cards[0]?
        = some usedCard := by
  have h1010 := consumed_is_terminal "k" usedDB 1010 okParams "p1" none none "O9"
    { productId := some "p1" }
  have h1300 := consumed_is_terminal "k" usedDB 1300 okParams "p1" none none "O9"
    { productId := some "p1" }
  exact ⟨rfl, rfl, h1010.1 0 usedCard rfl rfl, h1010.2.1 0 usedCard rfl rfl,
    h1300.2.2 0 usedCard rfl rfl⟩

end LDCShop
